import Mathlib

/-!
Shallow embedding of the NooBaa AccountSpaceFS identity store
(src/sdk/accountspace_fs.js, provided as src/unnamed/part_002), the IAM error
table (src/endpoint/iam/iam_errors.js, also src/unnamed/part_006), the account
JSON schema (src/unnamed/part_005) and the helpers these import.

Filesystem state is modelled as association lists keyed by file-name stem: an
entry (n, a) in St.accounts stands for the file accounts/n.json holding the
record a, and an entry (k, t) in St.links stands for the symlink
access_keys/k.symlink whose target is ../accounts/t.json.  Randomness and the
wall clock are passed in as explicit oracle arguments.
-/

namespace AccountSpace

/-- Access-key slot as persisted inside an account JSON file.  The field set is
the union of what the schema (part_005, access_keys.items) declares and what
AccountSpaceFS (part_002) writes; optional fields model JSON properties that
may be absent.  Note the schema declares a boolean is_active, while part_002
writes a string status. -/
structure AccessKeySlot where
  access_key : String
  encrypted_secret_key : String
  creation_date : Option String := none
  status : Option String := none
  is_active : Option Bool := none
  creator_identity : Option String := none
  master_key_id : Option String := none
  deriving DecidableEq

/-- The nsfs_account_config sub-object of an account (part_005: oneOf
uid/gid or distinguished_name). -/
structure NsfsAccountConfig where
  uid : Option Nat := none
  gid : Option Nat := none
  distinguished_name : Option String := none
  new_buckets_path : Option String := none
  fs_backend : Option String := none
  deriving DecidableEq

/-- An account record, the single persisted entity (part_005 account_schema).
The same shape is used for the requesting account supplied by the session
layer; SensitiveString wrappers are modelled as plain strings. -/
structure Account where
  _id : String
  name : String
  email : String
  creation_date : String
  owner : Option String := none
  creator : Option String := none
  iam_path : Option String := none
  master_key_id : String
  allow_bucket_creation : Bool := true
  force_md5_etag : Option Bool := none
  access_keys : List AccessKeySlot := []
  nsfs_account_config : NsfsAccountConfig
  deriving DecidableEq

/-- Association-list lookup specialised to string keys (first match wins, as a
directory has at most one entry per name). -/
def alookup (l : List (String × α)) (k : String) : Option α :=
  match l with
  | [] => none
  | (k', v) :: t => if k' = k then some v else alookup t k

/-- Replace the first entry with the given key, or append a new entry. -/
def aset (l : List (String × α)) (k : String) (v : α) : List (String × α) :=
  match l with
  | [] => [(k, v)]
  | (k', v') :: t => if k' = k then (k, v) :: t else (k', v') :: aset t k v

/-- Remove the first entry with the given key. -/
def aerase (l : List (String × α)) (k : String) : List (String × α) :=
  match l with
  | [] => []
  | (k', v') :: t => if k' = k then t else (k', v') :: aerase t k

/-- JS string-or-default: o || d, where an absent or empty string is falsy. -/
def jsOr (o : Option String) (d : String) : String :=
  match o with
  | none => d
  | some s => if s = "" then d else s

/-- JS String.prototype.includes, used for the temp-file-marker skip. -/
def jsIncludes (s sub : String) : Bool :=
  decide (sub.toList <:+: s.toList)

/-- Specification record of a static IamError entry: code, message, http_code
(src/endpoint/iam/iam_errors.js). -/
structure IamErrorSpec where
  code : String
  message : String
  http_code : Nat
  deriving DecidableEq

/-- The static property table of the IamError class, transcribed from
src/endpoint/iam/iam_errors.js (= part_006).  A key that the source file does
not define maps to none, modelling the JS value undefined.  Note two facts of
the source: there is no property named AccessDenied (only
AccessDeniedException), and the entries ConcurrentModification, InvalidInput
and LimitExceeded all carry code EntityAlreadyExists. -/
def IamErrorStatic (k : String) : Option IamErrorSpec :=
  if k = "AccessDeniedException" then
    some ⟨"AccessDeniedException", "You do not have sufficient access to perform this action.", 400⟩
  else if k = "ConcurrentModification" then
    some ⟨"EntityAlreadyExists", "The request was rejected because multiple requests to change this object were submitted simultaneously. Wait a few minutes and submit your request again.", 409⟩
  else if k = "EntityAlreadyExists" then
    some ⟨"EntityAlreadyExists", "The request was rejected because it attempted to create a resource that already exists.", 409⟩
  else if k = "InvalidInput" then
    some ⟨"EntityAlreadyExists", "The request was rejected because an invalid or out-of-range value was supplied for an input parameter.", 400⟩
  else if k = "LimitExceeded" then
    some ⟨"EntityAlreadyExists", "The request was rejected because it attempted to create resources beyond the current AWS account limits. The error message describes the limit exceeded.", 409⟩
  else if k = "NoSuchEntity" then
    some ⟨"NoSuchEntity", "The request was rejected because it referenced a resource entity that does not exist. The error message describes the resource.", 404⟩
  else if k = "ServiceFailure" then
    some ⟨"ServiceFailure", "The request processing has failed because of an unknown error, exception or failure.", 500⟩
  else if k = "DeleteConflict" then
    some ⟨"DeleteConflict", "The request was rejected because it attempted to delete a resource that has attached subordinate entities. The error message describes these entities.", 409⟩
  else if k = "ValidationError" then
    some ⟨"ValidationError", "The input fails to satisfy the constraints specified by an AWS service.", 400⟩
  else none

/-- Kind of a thrown JavaScript error value. -/
inductive JsErrorKind
  | iamError
  | typeError
  | fsError
  deriving DecidableEq

/-- A thrown JavaScript error: an IamError instance, a plain TypeError (raised
for example when destructuring a property of undefined), or a filesystem error
carrying an errno string in code. -/
structure JsError where
  kind : JsErrorKind
  code : Option String := none
  message : String := ""
  http_code : Option Nat := none
  rpc_code : Option String := none
  deriving DecidableEq

/-- Build an IamError instance from a static spec entry and a detail message,
as in new IamError with the destructured code and http_code. -/
def mkIamError (spec : IamErrorSpec) (msg : String) : JsError :=
  { kind := .iamError, code := some spec.code, message := msg, http_code := some spec.http_code }

/-- The TypeError raised by the JS runtime when destructuring a property of an
undefined value. -/
def destructureUndefinedError : JsError :=
  { kind := .typeError, message := "Cannot destructure property of undefined" }

namespace entity_enum

def USER : String := "USER"

def ACCESS_KEY : String := "ACCESS_KEY"

end entity_enum

/-- AccountSpaceFS._translate_error_codes (part_002): attach an rpc_code for
known errno codes, leaving the error otherwise unchanged.  An error that
already carries an rpc_code is returned as is. -/
def _translate_error_codes (err : JsError) (entity : String) : JsError :=
  if err.rpc_code.isSome then err
  else if err.code = some "ENOENT" then { err with rpc_code := some ("NO_SUCH_" ++ entity) }
  else if err.code = some "EEXIST" then { err with rpc_code := some (entity ++ "_ALREADY_EXISTS") }
  else if err.code = some "EPERM" ∨ err.code = some "EACCES" then { err with rpc_code := some "UNAUTHORIZED" }
  else err

def AWS_EMPTY_PATH : String := "/"

/-- Modelled from the spec: IAM_DEFAULT_PATH exported by iam_utils (the
version of src/endpoint/iam/iam_utils.js that part_002 imports is not under
src; spec 3 gives the default AWS path string). -/
def IAM_DEFAULT_PATH : String := "/"

/-- Modelled from the spec: MAX_NUMBER_OF_ACCESS_KEYS from iam_utils (missing
from src); spec I4 and B1 fix the quota at two keys per account. -/
def MAX_NUMBER_OF_ACCESS_KEYS : Nat := 2

namespace access_key_status_enum

/-- Modelled from the spec: access_key_status_enum from iam_utils (missing
from src); spec 3 gives the wire forms Active and Inactive. -/
def ACTIVE : String := "Active"

def INACTIVE : String := "Inactive"

end access_key_status_enum

namespace identity_enum

/-- Modelled from the spec: identity_enum from iam_utils (missing from src);
spec 3 gives the creator_identity values RootAccount and User. -/
def ROOT_ACCOUNT : String := "RootAccount"

def USER : String := "User"

end identity_enum

/-- Modelled from the spec: check_iam_path_was_set from iam_utils (missing
from src); spec 4.5 filters by prefix only when the requester passed a
non-default prefix, so an absent or empty or default "/" prefix is not set. -/
def check_iam_path_was_set (p : Option String) : Bool :=
  match p with
  | none => false
  | some s => s ≠ "" && s ≠ IAM_DEFAULT_PATH

/-- Modelled from the spec: get_action_message_title from iam_utils (missing
from src); it renders the full iam action name used inside denial messages. -/
def get_action_message_title (action : String) : String :=
  "iam:" ++ action

/-- create_arn from src/endpoint/iam/iam_utils.js: the ARN is
arn:aws:iam:ACCOUNT_ID:user with /PATH/USERNAME or /USERNAME appended, with
double slashes collapsed when a path is present.  An absent path (JS
undefined) is falsy and yields the basic form. -/
def create_arn (account_id username : String) (path : Option String) : String :=
  let basic := "arn:aws:iam:" ++ account_id ++ ":user"
  match path with
  | none => basic ++ "/" ++ username
  | some p =>
      if p ≠ "" && p ≠ AWS_EMPTY_PATH then
        (basic ++ "/" ++ p ++ "/" ++ username).replace "//" "/"
      else
        basic ++ "/" ++ username

/-- Modelled from the spec: the temp-file marker substring
config.NSFS_TEMP_CONF_DIR_NAME (config.js is not under src); spec 4.5 and 4.8
only require that paths whose name contains the marker are skipped. -/
def NSFS_TEMP_CONF_DIR_NAME : String := ".noobaa-nsfs-tmp"

/-- Modelled from the spec: the master-key manager nc_master_key_manager (not
under src), consumed through active_key_id / encrypt / decrypt (spec 9).  Only
the identifier of the currently active key is state. -/
structure Mkm where
  active_id : String
  deriving DecidableEq

/-- Modelled from the spec: nc_mkm.encrypt as a symbolic injective encoding of
the key id and the plaintext, so that which key produced which ciphertext is
visible in the result. -/
def mkmEncrypt (key_id plaintext : String) : String :=
  "enc[" ++ key_id ++ "|" ++ plaintext ++ "]"

/-- Modelled from the spec: nc_mkm.decrypt as a symbolic operation recording
which key id was used on which ciphertext. -/
def mkmDecrypt (key_id cipher : String) : String :=
  "dec[" ++ key_id ++ "|" ++ cipher ++ "]"

/-- On-disk state of the configuration root.  accounts models the
accounts/ directory (stem of NAME.json mapped to the parsed record), links
models the access_keys/ directory (stem of KEY.symlink mapped to the stem of
the target account file), mtimes records the write clock of each account file
and clock is the global write counter that also stands in for Date.now(). -/
structure St where
  accounts : List (String × Account) := []
  links : List (String × String) := []
  mtimes : List (String × Nat) := []
  clock : Nat := 0
  deriving DecidableEq

/-- Side effects of one operation: which account files were written, created
or deleted (by stem), which symlinks were created or unlinked, which cache
keys were invalidated, and which master-key calls were made (key id paired
with ciphertext or plaintext). -/
structure Effects where
  written : List String := []
  created : List String := []
  deleted : List String := []
  symlinked : List (String × String) := []
  unlinked : List String := []
  invalidated : List String := []
  decrypt_calls : List (String × String) := []
  encrypt_calls : List (String × String) := []
  deriving DecidableEq

instance instDecidableEqExcept {ε α : Type} [DecidableEq ε] [DecidableEq α] :
    DecidableEq (Except ε α) := fun a b =>
  match a, b with
  | .ok x, .ok y => decidable_of_iff (x = y) (by simp)
  | .error x, .error y => decidable_of_iff (x = y) (by simp)
  | .ok _, .error _ => isFalse (by simp)
  | .error _, .ok _ => isFalse (by simp)

/-- Outcome of one operation: the returned value or thrown error, the state
after the operation, and the observed side effects. -/
structure OpOut (α : Type) where
  result : Except JsError α
  st : St
  fx : Effects
  deriving DecidableEq

/-- Modelled from the spec: native_fs_utils.is_path_exists for an account
config path (native_fs_utils.js is not under src; spec 4.2 read/existence
checks). -/
def is_account_path_exists (st : St) (name : String) : Bool :=
  (alookup st.accounts name).isSome

/-- Modelled from the spec: reading an account config file (spec 4.2 read:
NotFound when the path is missing, otherwise the full record). -/
def read_account_file (st : St) (name : String) : Option Account :=
  alookup st.accounts name

/-- Modelled from the spec: native_fs_utils.update_config_file (spec 4.2
update: write-temp-rename over the path; the rename installs the new content
and refreshes the mtime). -/
def update_config_file (st : St) (name : String) (a : Account) : St :=
  { st with
    accounts := aset st.accounts name a
    mtimes := aset st.mtimes name st.clock
    clock := st.clock + 1 }

/-- Modelled from the spec: native_fs_utils.create_config_file (spec 4.2
create: fails with EEXIST when the path exists, otherwise writes atomically). -/
def create_config_file (st : St) (name : String) (a : Account) : Except JsError St :=
  if (alookup st.accounts name).isSome then
    .error { kind := .fsError, code := some "EEXIST" }
  else
    .ok { st with
          accounts := aset st.accounts name a
          mtimes := aset st.mtimes name st.clock
          clock := st.clock + 1 }

/-- Modelled from the spec: native_fs_utils.delete_config_file (spec 4.2
delete: unlinks, propagating NotFound). -/
def delete_config_file (st : St) (name : String) : Except JsError St :=
  if (alookup st.accounts name).isSome then
    .ok { st with accounts := aerase st.accounts name, mtimes := aerase st.mtimes name }
  else
    .error { kind := .fsError, code := some "ENOENT" }

/-- Modelled from the spec: nb_native fs.symlink into the access-key index
(spec 4.3; EEXIST when the link already exists). -/
def fs_symlink (st : St) (k target : String) : Except JsError St :=
  if (alookup st.links k).isSome then
    .error { kind := .fsError, code := some "EEXIST" }
  else
    .ok { st with links := st.links ++ [(k, target)] }

/-- Modelled from the spec: nb_native fs.unlink of an access-key symlink
(spec 4.3; ENOENT when absent). -/
def fs_unlink (st : St) (k : String) : Except JsError St :=
  if (alookup st.links k).isSome then
    .ok { st with links := aerase st.links k }
  else
    .error { kind := .fsError, code := some "ENOENT" }

/-- nsfs_schema_utils.validate_account_schema on the nsfs_account_config
sub-object (part_005): oneOf requires exactly one of the uid/gid branch and
the distinguished_name branch to match. -/
def validate_nsfs_config (c : NsfsAccountConfig) : Bool :=
  (c.uid.isSome && c.gid.isSome) != c.distinguished_name.isSome

/-- nsfs_schema_utils.validate_account_schema (part_005 account_schema): the
top-level required properties are non-optional fields of Account, so only the
nsfs_account_config oneOf constraint remains to check. -/
def validate_account_schema (a : Account) : Bool :=
  validate_nsfs_config a.nsfs_account_config

/-- Throwing one of the static IamError entries: the source destructures
code/http_code from the static property and wraps them in a new IamError with
a detail message.  When the named property does not exist on IamError the
destructuring itself raises a TypeError, which is what the JS runtime throws
in place of the intended error. -/
def throw_static (k : String) (msg : String) : JsError :=
  match IamErrorStatic k with
  | some spec => mkIamError spec msg
  | none => destructureUndefinedError

/-- Modelled from the spec: nsfs_schema_utils.validate_account_schema throw
(nsfs_schema_utils.js is not under src); spec 7 reports schema failures as
ValidationError. -/
def validation_error : JsError :=
  throw_static "ValidationError" "The input fails to satisfy the constraints specified by an AWS service."

/-- AccountSpaceFS._check_root_account (part_002): owner absent or equal to
the own id. -/
def _check_root_account (a : Account) : Bool :=
  a.owner.isNone || a.owner == some a._id

/-- AccountSpaceFS._check_root_account_owns_user (part_002). -/
def _check_root_account_owns_user (root user : Account) : Bool :=
  match user.owner with
  | none => false
  | some o => root._id == o

/-- AccountSpaceFS._throw_access_denied_error (part_002).  The detail message
is built from the requester ARN (note the source reads requesting_account.path
and details.path, properties that no caller ever sets, so the path argument of
create_arn is always undefined here), after which the source destructures
IamError.AccessDenied - a property that src/endpoint/iam/iam_errors.js does
not define - so at run time this function raises a TypeError instead of an
IamError. -/
def _throw_access_denied_error (action : String) (req : Account)
    (details_username : Option String) (details_access_key : Option String)
    (entity : String) : JsError :=
  let full := get_action_message_title action
  let arn_req := create_arn req._id req.name none
  let basic := "User: " ++ arn_req ++ " is not authorized to perform:" ++ full ++ " on resource: "
  let msg :=
    if entity = entity_enum.USER then
      let user_message :=
        if action = "list_access_keys" then "user " ++ req.name
        else create_arn req._id (details_username.getD "undefined") none
      basic ++ user_message ++ " because no identity-based policy allows the " ++ full ++ " action"
    else
      basic ++ "access key " ++ details_access_key.getD "undefined"
  throw_static "AccessDenied" msg

/-- AccountSpaceFS._check_if_requesting_account_is_root_account (part_002):
none when the check passes, otherwise the thrown error. -/
def _check_if_requesting_account_is_root_account (action : String) (req : Account)
    (details_username : Option String) : Option JsError :=
  if _check_root_account req then none
  else some (_throw_access_denied_error action req details_username none entity_enum.USER)

/-- AccountSpaceFS._check_if_requested_account_is_root_account (part_002). -/
def _check_if_requested_account_is_root_account (action : String) (req requested : Account)
    (details_username : Option String) : Option JsError :=
  if _check_root_account requested then
    some (_throw_access_denied_error action req details_username none entity_enum.USER)
  else none

/-- AccountSpaceFS._check_username_already_exists (part_002). -/
def _check_username_already_exists (st : St) (username : String) : Option JsError :=
  if is_account_path_exists st username then
    some (throw_static "EntityAlreadyExists" ("User with name " ++ username ++ " already exists."))
  else none

/-- AccountSpaceFS._check_if_account_config_file_exists (part_002). -/
def _check_if_account_config_file_exists (st : St) (username : String) : Option JsError :=
  if is_account_path_exists st username then none
  else some (throw_static "NoSuchEntity" ("The user with name " ++ username ++ " cannot be found."))

/-- AccountSpaceFS._check_if_user_is_owned_by_root_account (part_002). -/
def _check_if_user_is_owned_by_root_account (req requested : Account) : Option JsError :=
  if _check_root_account_owns_user req requested then none
  else some (throw_static "NoSuchEntity" ("The user with name " ++ requested.name ++ " cannot be found."))

/-- AccountSpaceFS._check_if_user_does_not_have_access_keys_before_deletion
(part_002). -/
def _check_if_user_does_not_have_access_keys_before_deletion (acc : Account) : Option JsError :=
  if acc.access_keys.length = 0 then none
  else some (throw_static "DeleteConflict" "Cannot delete entity, must delete access keys first.")

/-- AccountSpaceFS._check_number_of_access_key_array (part_002). -/
def _check_number_of_access_key_array (acc : Account) : Option JsError :=
  if acc.access_keys.length ≥ MAX_NUMBER_OF_ACCESS_KEYS then
    some (throw_static "LimitExceeded"
      ("Cannot exceed quota for AccessKeysPerUser: " ++ toString MAX_NUMBER_OF_ACCESS_KEYS ++ "."))
  else none

/-- AccountSpaceFS._check_if_requested_account_same_as_requesting_account
(part_002): the root of each side is owner when set and otherwise the own id
(JS or-else on a possibly absent string). -/
def _check_if_requested_account_same_as_requesting_account (action : String)
    (req requested : Account) (access_key : String) : Option JsError :=
  let root_account_id_requesting_account := jsOr req.owner req._id
  let root_account_id_config_data := jsOr requested.owner requested._id
  if root_account_id_requesting_account = root_account_id_config_data then none
  else some (_throw_access_denied_error action req none (some access_key) entity_enum.ACCESS_KEY)

/-- Requester classification returned by _check_root_account_or_user. -/
structure Requester where
  name : String
  identity : String
  deriving DecidableEq

/-- AccountSpaceFS._check_root_account_or_user (part_002): a root account (on
anybody), or a user acting on itself (username absent or equal to its own
name); none models the is_root_account_or_user_on_itself = false outcome. -/
def _check_root_account_or_user (req : Account) (username : Option String) : Option Requester :=
  if _check_root_account req then
    some ⟨req.name, identity_enum.ROOT_ACCOUNT⟩
  else
    match username with
    | none => some ⟨req.name, identity_enum.USER⟩
    | some u => if req.name = u then some ⟨u, identity_enum.USER⟩ else none

/-- AccountSpaceFS._check_if_requesting_account_is_root_account_or_user_om_himself
(part_002). -/
def _check_if_requesting_account_is_root_account_or_user_om_himself (action : String)
    (req : Account) (username : Option String) : Except JsError Requester :=
  match _check_root_account_or_user req username with
  | some r => .ok r
  | none => .error (_throw_access_denied_error action req username none entity_enum.USER)

/-- AccountSpaceFS._check_if_account_exists_by_access_key_symlink (part_002):
is_path_exists stats through the symlink, so a missing or dangling link both
count as absent; resolve the link and the account file it points at. -/
def resolve_symlink (st : St) (k : String) : Option Account :=
  (alookup st.links k).bind (alookup st.accounts)

/-- AccountSpaceFS._get_available_index_for_access_key (part_002).  Lists are
dense here, so the JS check for an undefined slot 0 reduces to emptiness. -/
def _get_available_index_for_access_key (l : List AccessKeySlot) : Nat :=
  if l.length = 0 then 0 else 1

/-- JS array element assignment arr[i] = x for a dense array with i at most
the length: in place for i below the length, append at the length. -/
def jsArraySet (l : List α) (i : Nat) (x : α) : List α :=
  if i < l.length then l.set i x else l ++ [x]

/-- JS Array.prototype.findIndex and lodash findIndex: the index of the first
element satisfying the predicate; none models the -1 outcome. -/
def jsFindIndex (p : α → Bool) : List α → Option Nat
  | [] => none
  | a :: t => if p a then some 0 else (jsFindIndex p t).map (· + 1)

/-- AccountSpaceFS._get_access_key (part_002): lodash findIndex plus the
element; none models the index -1 outcome where the element is undefined. -/
def _get_access_key (acc : Account) (k : String) : Option (Nat × AccessKeySlot) :=
  match jsFindIndex (fun s => s.access_key == k) acc.access_keys with
  | some i =>
      match acc.access_keys[i]? with
      | some s => some (i, s)
      | none => none
  | none => none

/-- JS arr.splice(i, 1) where i is a findIndex result: removes the element at
i when found, and removes the LAST element when i is -1. -/
def jsSpliceRemoveAt (l : List α) (idx : Option Nat) : List α :=
  match idx with
  | some i => l.eraseIdx i
  | none => l.dropLast

/-- AccountSpaceFS._clean_account_cache (part_002): the access-key ids whose
cache entries get invalidated - exactly the keys currently on the record. -/
def _clean_account_cache (acc : Account) : List String :=
  acc.access_keys.map (fun s => s.access_key)

/-- The TypeError raised when the source reads a property of undefined (for
example access_key.status after a failed lookup). -/
def undefinedPropertyError : JsError :=
  { kind := .typeError, message := "Cannot read properties of undefined" }

/-- Shared failure outcome: the thrown error run through
_translate_error_codes, state unchanged, no effects. -/
def failOut (st : St) (entity : String) (e : JsError) : OpOut α :=
  { result := .error (_translate_error_codes e entity), st := st, fx := {} }

/-- Parameters of create_user. -/
structure CreateUserParams where
  username : String
  iam_path : Option String := none
  deriving DecidableEq

/-- Reply of create_user. -/
structure CreateUserOut where
  iam_path : String
  username : String
  user_id : String
  arn : String
  create_date : String
  deriving DecidableEq

/-- AccountSpaceFS._new_user_defaults (part_002).  gen_id and date are the
generate_id() and new Date().toISOString() oracles.  A distinguished name
that is present but empty is falsy in JS, so uid/gid are then kept. -/
def _new_user_defaults (req : Account) (p : CreateUserParams) (gen_id date : String) : Account :=
  let dn := req.nsfs_account_config.distinguished_name
  let dn_truthy := match dn with
    | none => false
    | some s => s ≠ ""
  { _id := gen_id
    name := p.username
    email := p.username
    creation_date := date
    owner := some req._id
    creator := some req._id
    iam_path := some (jsOr p.iam_path IAM_DEFAULT_PATH)
    master_key_id := req.master_key_id
    allow_bucket_creation := req.allow_bucket_creation
    force_md5_etag := req.force_md5_etag
    access_keys := []
    nsfs_account_config :=
      { distinguished_name := dn
        uid := if dn_truthy then none else req.nsfs_account_config.uid
        gid := if dn_truthy then none else req.nsfs_account_config.gid
        new_buckets_path := req.nsfs_account_config.new_buckets_path
        fs_backend := req.nsfs_account_config.fs_backend } }

/-- AccountSpaceFS.create_user (part_002): root gate, name-collision check,
defaults copied from the requesting root, schema validation, atomic create. -/
def create_user (st : St) (req : Account) (p : CreateUserParams) (gen_id date : String) :
    OpOut CreateUserOut :=
  match _check_if_requesting_account_is_root_account "create_user" req (some p.username) with
  | some e => failOut st entity_enum.USER e
  | none =>
  match _check_username_already_exists st p.username with
  | some e => failOut st entity_enum.USER e
  | none =>
  let created := _new_user_defaults req p gen_id date
  if validate_account_schema created then
    match create_config_file st p.username created with
    | .error e => failOut st entity_enum.USER e
    | .ok st1 =>
        { result := .ok
            { iam_path := jsOr created.iam_path IAM_DEFAULT_PATH
              username := created.name
              user_id := created._id
              arn := create_arn req._id created.name created.iam_path
              create_date := created.creation_date }
          st := st1
          fx := { created := [p.username] } }
  else failOut st entity_enum.USER validation_error

/-- Parameters of update_user. -/
structure UpdateUserParams where
  username : String
  new_username : Option String := none
  new_iam_path : Option String := none
  deriving DecidableEq

/-- Reply of update_user. -/
structure UpdateUserOut where
  iam_path : String
  username : String
  user_id : String
  arn : String
  deriving DecidableEq

/-- View of an account returned by update_user (part_002). -/
def update_user_view (req acc : Account) : UpdateUserOut :=
  { iam_path := jsOr acc.iam_path IAM_DEFAULT_PATH
    username := acc.name
    user_id := acc._id
    arn := create_arn req._id acc.name acc.iam_path }

/-- The in-memory iam-path patch of update_user (part_002): when
new_iam_path is present it overwrites iam_path before any write. -/
def apply_new_iam_path (p : UpdateUserParams) (a : Account) : Account :=
  match p.new_iam_path with
  | some nip => { a with iam_path := some nip }
  | none => a

/-- AccountSpaceFS.update_user (part_002): root gate, existence and ownership
checks, optional iam-path patch, and either the rename protocol
(_update_account_config_new_username: collision check, create under the new
name, delete the old file) or an in-place update; finally the cache is
invalidated for all access keys of the record. -/
def update_user (st : St) (req : Account) (p : UpdateUserParams) : OpOut UpdateUserOut :=
  match _check_if_requesting_account_is_root_account "update_user" req (some p.username) with
  | some e => failOut st entity_enum.USER e
  | none =>
  match _check_if_account_config_file_exists st p.username with
  | some e => failOut st entity_enum.USER e
  | none =>
  match read_account_file st p.username with
  | none => failOut st entity_enum.USER { kind := .fsError, code := some "ENOENT" }
  | some acc0 =>
  match _check_if_requested_account_is_root_account "update_user" req acc0 (some p.username) with
  | some e => failOut st entity_enum.USER e
  | none =>
  match _check_if_user_is_owned_by_root_account req acc0 with
  | some e => failOut st entity_enum.USER e
  | none =>
  let acc1 := apply_new_iam_path p acc0
  match p.new_username with
  | some nu =>
    if nu ≠ p.username then
      -- _update_account_config_new_username
      match _check_username_already_exists st nu with
      | some e => failOut st entity_enum.USER e
      | none =>
      let acc2 := { acc1 with name := nu, email := nu }
      if validate_account_schema acc2 then
        match create_config_file st nu acc2 with
        | .error e => failOut st entity_enum.USER e
        | .ok st1 =>
          match delete_config_file st1 p.username with
          | .error e =>
              { result := .error (_translate_error_codes e entity_enum.USER)
                st := st1
                fx := { created := [nu] } }
          | .ok st2 =>
              { result := .ok (update_user_view req acc2)
                st := st2
                fx := { created := [nu], deleted := [p.username]
                        invalidated := _clean_account_cache acc2 } }
      else failOut st entity_enum.USER validation_error
    else
      if validate_account_schema acc1 then
        { result := .ok (update_user_view req acc1)
          st := update_config_file st p.username acc1
          fx := { written := [p.username], invalidated := _clean_account_cache acc1 } }
      else failOut st entity_enum.USER validation_error
  | none =>
      if validate_account_schema acc1 then
        { result := .ok (update_user_view req acc1)
          st := update_config_file st p.username acc1
          fx := { written := [p.username], invalidated := _clean_account_cache acc1 } }
      else failOut st entity_enum.USER validation_error

/-- AccountSpaceFS.delete_user (part_002): root gate, existence, not-root and
ownership checks, the no-remaining-access-keys guard, then file deletion. -/
def delete_user (st : St) (req : Account) (username : String) : OpOut Unit :=
  match _check_if_requesting_account_is_root_account "delete_user" req (some username) with
  | some e => failOut st entity_enum.USER e
  | none =>
  match _check_if_account_config_file_exists st username with
  | some e => failOut st entity_enum.USER e
  | none =>
  match read_account_file st username with
  | none => failOut st entity_enum.USER { kind := .fsError, code := some "ENOENT" }
  | some acc =>
  match _check_if_requested_account_is_root_account "delete_user" req acc (some username) with
  | some e => failOut st entity_enum.USER e
  | none =>
  match _check_if_user_is_owned_by_root_account req acc with
  | some e => failOut st entity_enum.USER e
  | none =>
  match _check_if_user_does_not_have_access_keys_before_deletion acc with
  | some e => failOut st entity_enum.USER e
  | none =>
  match delete_config_file st username with
  | .error e => failOut st entity_enum.USER e
  | .ok st1 => { result := .ok (), st := st1, fx := { deleted := [username] } }

/-- Member record returned by list_users (part_002, _list_config_files_for_users). -/
structure ListedUser where
  user_id : String
  iam_path : String
  username : String
  arn : String
  create_date : String
  password_last_used : Nat
  deriving DecidableEq

/-- Reply of list_users. -/
structure ListUsersOut where
  members : List ListedUser
  is_truncated : Bool
  deriving DecidableEq

/-- The user_data view built per retained account file (part_002,
_list_config_files_for_users); Date.now() is modelled by the state clock. -/
def user_view (req : Account) (st : St) (acc : Account) : ListedUser :=
  { user_id := acc._id
    iam_path := jsOr acc.iam_path IAM_DEFAULT_PATH
    username := acc.name
    arn := create_arn req._id acc.name acc.iam_path
    create_date := acc.creation_date
    password_last_used := st.clock }

/-- AccountSpaceFS._list_config_files_for_users (part_002): every directory
entry NAME.json is read, entries whose file name contains the temp marker are
dropped, only accounts owned by the requester are retained, and when a
non-default iam-path prefix was passed accounts without an iam_path or with a
non-matching one are dropped. -/
def _list_config_files_for_users (st : St) (req : Account) (pre : Option String) :
    List ListedUser :=
  st.accounts.filterMap (fun nv =>
    if jsIncludes (nv.fst ++ ".json") NSFS_TEMP_CONF_DIR_NAME then none
    else if _check_root_account_owns_user req nv.snd then
      if check_iam_path_was_set pre then
        match nv.snd.iam_path, pre with
        | some ip, some pre0 => if ip.startsWith pre0 then some (user_view req st nv.snd) else none
        | _, _ => none
      else some (user_view req st nv.snd)
    else none)

/-- Comparison used by list_users: a.username.localeCompare(b.username) at
most zero.  localeCompare is modelled as code-point lexicographic comparison,
its locale-independent fallback semantics. -/
def listed_le (a b : ListedUser) : Prop :=
  a.username ≤ b.username

instance : DecidableRel listed_le := fun a b =>
  inferInstanceAs (Decidable (a.username ≤ b.username))

instance : IsTotal ListedUser listed_le :=
  ⟨fun a b => le_total a.username b.username⟩

instance : IsTrans ListedUser listed_le :=
  ⟨fun _ _ _ hab hbc => le_trans hab hbc⟩

/-- AccountSpaceFS.list_users (part_002): root gate, scan of the accounts
directory, sort of the members by username ascending, is_truncated false. -/
def list_users (st : St) (req : Account) (pre : Option String) : OpOut ListUsersOut :=
  match _check_if_requesting_account_is_root_account "list_users" req none with
  | some e => failOut st entity_enum.USER e
  | none =>
  let members := (_list_config_files_for_users st req pre).insertionSort listed_le
  { result := .ok { members := members, is_truncated := false }, st := st, fx := {} }

/-- Parameters of create_access_key. -/
structure CreateAccessKeyParams where
  username : Option String := none
  deriving DecidableEq

/-- Reply of create_access_key. -/
structure CreateAccessKeyOut where
  username : String
  access_key : String
  create_date : String
  status : String
  secret_key : String
  deriving DecidableEq

/-- AccountSpaceFS.create_access_key (part_002): root-or-self gate, existence
check, ownership re-check for a root requester, the two-key quota, key
generation (gen_ak/gen_sk oracles), encryption with the active master key,
slot assignment, master-key-id refresh on the account, schema validation,
account-file update and finally the symlink creation. -/
def create_access_key (st : St) (mkm : Mkm) (req : Account) (p : CreateAccessKeyParams)
    (gen_ak gen_sk date : String) : OpOut CreateAccessKeyOut :=
  match _check_if_requesting_account_is_root_account_or_user_om_himself "create_access_key" req p.username with
  | .error e => failOut st entity_enum.ACCESS_KEY e
  | .ok requester =>
  let name_for_access_key := p.username.getD requester.name
  match _check_if_account_config_file_exists st name_for_access_key with
  | some e => failOut st entity_enum.ACCESS_KEY e
  | none =>
  match read_account_file st name_for_access_key with
  | none => failOut st entity_enum.ACCESS_KEY { kind := .fsError, code := some "ENOENT" }
  | some acc =>
  match (if requester.identity = identity_enum.ROOT_ACCOUNT
         then _check_if_user_is_owned_by_root_account req acc
         else none) with
  | some e => failOut st entity_enum.ACCESS_KEY e
  | none =>
  match _check_number_of_access_key_array acc with
  | some e => failOut st entity_enum.ACCESS_KEY e
  | none =>
  let index_for_access_key := _get_available_index_for_access_key acc.access_keys
  let master_key_id := mkm.active_id
  let encrypted_secret_key := mkmEncrypt master_key_id gen_sk
  let slot : AccessKeySlot :=
    { access_key := gen_ak
      encrypted_secret_key := encrypted_secret_key
      creation_date := some date
      status := some access_key_status_enum.ACTIVE
      is_active := none
      creator_identity := some requester.identity
      master_key_id := some master_key_id }
  let acc1 := { acc with
                access_keys := jsArraySet acc.access_keys index_for_access_key slot
                master_key_id := master_key_id }
  if validate_account_schema acc1 then
    let st1 := update_config_file st name_for_access_key acc1
    match fs_symlink st1 gen_ak acc1.name with
    | .error e =>
        { result := .error (_translate_error_codes e entity_enum.ACCESS_KEY)
          st := st1
          fx := { written := [name_for_access_key]
                  encrypt_calls := [(master_key_id, gen_sk)] } }
    | .ok st2 =>
        { result := .ok
            { username := acc1.name
              access_key := gen_ak
              create_date := date
              status := access_key_status_enum.ACTIVE
              secret_key := gen_sk }
          st := st2
          fx := { written := [name_for_access_key]
                  symlinked := [(gen_ak, acc1.name)]
                  encrypt_calls := [(master_key_id, gen_sk)] } }
  else
    { result := .error (_translate_error_codes validation_error entity_enum.ACCESS_KEY)
      st := st
      fx := { encrypt_calls := [(master_key_id, gen_sk)] } }

/-- Parameters of update_access_key. -/
structure UpdateAccessKeyParams where
  username : Option String := none
  access_key : String
  status : String
  deriving DecidableEq

/-- AccountSpaceFS.update_access_key (part_002): root-or-self gate, symlink
existence check, resolution of the account through the symlink, same-root
check, slot lookup; when the stored status equals the requested one the call
returns silently without touching anything; otherwise the secret is decrypted
and re-encrypted with the ACTIVE master key (note _decrypt_encrypted_secret_key
passes nc_mkm.active_master_key.id to decrypt, not the recorded slot key),
status and master-key ids are set, the account file derived from
params.username or the requester name is updated and the cache invalidated. -/
def update_access_key (st : St) (mkm : Mkm) (req : Account) (p : UpdateAccessKeyParams) :
    OpOut Unit :=
  match _check_if_requesting_account_is_root_account_or_user_om_himself "update_access_key" req p.username with
  | .error e => failOut st entity_enum.ACCESS_KEY e
  | .ok requester =>
  match resolve_symlink st p.access_key with
  | none => failOut st entity_enum.ACCESS_KEY
      (_throw_access_denied_error "update_access_key" req none (some p.access_key) entity_enum.ACCESS_KEY)
  | some acc =>
  match _check_if_requested_account_same_as_requesting_account "update_access_key" req acc p.access_key with
  | some e => failOut st entity_enum.ACCESS_KEY e
  | none =>
  match _get_access_key acc p.access_key with
  | none => failOut st entity_enum.ACCESS_KEY undefinedPropertyError
  | some (index_for_access_key, slot) =>
  if slot.status = some p.status then
    { result := .ok (), st := st, fx := {} }
  else
    let master_key_id := mkm.active_id
    let secret_key := mkmDecrypt master_key_id slot.encrypted_secret_key
    let encrypted_secret_key := mkmEncrypt master_key_id secret_key
    let slot1 := { slot with
                   encrypted_secret_key := encrypted_secret_key
                   status := some p.status
                   master_key_id := some master_key_id }
    let acc1 := { acc with
                  access_keys := acc.access_keys.set index_for_access_key slot1
                  master_key_id := master_key_id }
    if validate_account_schema acc1 then
      let name_for_access_key := p.username.getD requester.name
      { result := .ok ()
        st := update_config_file st name_for_access_key acc1
        fx := { written := [name_for_access_key]
                invalidated := _clean_account_cache acc1
                decrypt_calls := [(master_key_id, slot.encrypted_secret_key)]
                encrypt_calls := [(master_key_id, secret_key)] } }
    else
      { result := .error (_translate_error_codes validation_error entity_enum.ACCESS_KEY)
        st := st
        fx := { decrypt_calls := [(master_key_id, slot.encrypted_secret_key)]
                encrypt_calls := [(master_key_id, secret_key)] } }

/-- Parameters of delete_access_key. -/
structure DeleteAccessKeyParams where
  username : Option String := none
  access_key : String
  deriving DecidableEq

/-- AccountSpaceFS.delete_access_key (part_002): root-or-self gate, symlink
existence check, resolution through the symlink, same-root check, splice of
the matching slot out of access_keys, schema validation, update of the
account file derived from params.username or the requester name, unlink of
the symlink, and cache invalidation for the keys remaining on the record. -/
def delete_access_key (st : St) (req : Account) (p : DeleteAccessKeyParams) : OpOut Unit :=
  match _check_if_requesting_account_is_root_account_or_user_om_himself "delete_access_key" req p.username with
  | .error e => failOut st entity_enum.ACCESS_KEY e
  | .ok requester =>
  match resolve_symlink st p.access_key with
  | none => failOut st entity_enum.ACCESS_KEY
      (_throw_access_denied_error "delete_access_key" req none (some p.access_key) entity_enum.ACCESS_KEY)
  | some acc =>
  match _check_if_requested_account_same_as_requesting_account "delete_access_key" req acc p.access_key with
  | some e => failOut st entity_enum.ACCESS_KEY e
  | none =>
  let idx := jsFindIndex (fun s => s.access_key == p.access_key) acc.access_keys
  let acc1 := { acc with access_keys := jsSpliceRemoveAt acc.access_keys idx }
  if validate_account_schema acc1 then
    let name_for_access_key := p.username.getD requester.name
    let st1 := update_config_file st name_for_access_key acc1
    match fs_unlink st1 p.access_key with
    | .error e =>
        { result := .error (_translate_error_codes e entity_enum.ACCESS_KEY)
          st := st1
          fx := { written := [name_for_access_key] } }
    | .ok st2 =>
        { result := .ok ()
          st := st2
          fx := { written := [name_for_access_key]
                  unlinked := [p.access_key]
                  invalidated := _clean_account_cache acc1 } }
  else failOut st entity_enum.ACCESS_KEY validation_error

/-! Helper lemmas about the association-list directory model and about
findIndex / splice, shared by the theorems below. -/

theorem alookup_aset_self (l : List (String × α)) (k : String) (v : α) :
    alookup (aset l k v) k = some v := by
  induction l with
  | nil => simp [aset, alookup]
  | cons hd tl ih =>
      obtain ⟨k', v'⟩ := hd
      by_cases h : k' = k
      · simp [aset, alookup, h]
      · simp [aset, alookup, h, ih]

theorem alookup_aset_ne (l : List (String × α)) (k k' : String) (v : α) (h : k' ≠ k) :
    alookup (aset l k v) k' = alookup l k' := by
  have hk : k ≠ k' := Ne.symm h
  induction l with
  | nil => simp [aset, alookup, hk]
  | cons hd tl ih =>
      obtain ⟨a, b⟩ := hd
      by_cases ha : a = k
      · subst ha
        simp [aset, alookup, hk]
      · simp only [aset, ha, if_false, alookup]
        by_cases ha' : a = k'
        · simp [ha']
        · simp [ha', ih]

theorem alookup_aerase_ne (l : List (String × α)) (k k' : String) (h : k' ≠ k) :
    alookup (aerase l k) k' = alookup l k' := by
  have hk : k ≠ k' := Ne.symm h
  induction l with
  | nil => simp [aerase]
  | cons hd tl ih =>
      obtain ⟨a, b⟩ := hd
      by_cases ha : a = k
      · subst ha
        simp [aerase, alookup, hk]
      · simp only [aerase, ha, if_false, alookup]
        by_cases ha' : a = k'
        · simp [ha']
        · simp [ha', ih]

theorem alookup_eq_none_iff (l : List (String × α)) (k : String) :
    alookup l k = none ↔ k ∉ l.map Prod.fst := by
  induction l with
  | nil => simp [alookup]
  | cons hd tl ih =>
      obtain ⟨a, b⟩ := hd
      by_cases ha : a = k
      · simp [alookup, ha]
      · simp [alookup, ha, ih, Ne.symm ha]

theorem alookup_aerase_self (l : List (String × α)) (k : String)
    (hnd : (l.map Prod.fst).Nodup) : alookup (aerase l k) k = none := by
  induction l with
  | nil => simp [aerase, alookup]
  | cons hd tl ih =>
      obtain ⟨a, b⟩ := hd
      simp only [List.map_cons, List.nodup_cons] at hnd
      by_cases ha : a = k
      · subst ha
        simpa [aerase, alookup_eq_none_iff] using hnd.1
      · simp [aerase, alookup, ha, ih hnd.2]

theorem aset_eq_append (l : List (String × α)) (k : String) (v : α)
    (h : alookup l k = none) : aset l k v = l ++ [(k, v)] := by
  induction l with
  | nil => simp [aset]
  | cons hd tl ih =>
      obtain ⟨a, b⟩ := hd
      by_cases ha : a = k
      · simp [alookup, ha] at h
      · simp only [alookup, ha, if_false] at h
        simp [aset, ha, ih h]

theorem find_eraseIdx_not_mem (p : α → Bool) :
    ∀ (l : List α) (i : Nat), jsFindIndex p l = some i →
      (l.filter p).length ≤ 1 → ∀ x ∈ l.eraseIdx i, p x = false := by
  intro l
  induction l with
  | nil => intro i h; simp [jsFindIndex] at h
  | cons a t ih =>
      intro i h hcnt x hx
      by_cases hpa : p a
      · simp only [jsFindIndex, hpa, if_true, Option.some.injEq] at h
        subst h
        simp only [List.eraseIdx_cons_zero] at hx
        have hcnt' : (t.filter p).length + 1 ≤ 1 := by
          simpa [List.filter_cons, hpa] using hcnt
        have hnil : t.filter p = [] := by
          have : (t.filter p).length = 0 := by omega
          exact List.length_eq_zero.mp this
        have := (List.filter_eq_nil_iff.mp hnil) x hx
        simpa using this
      · rw [show jsFindIndex p (a :: t) = (jsFindIndex p t).map (· + 1) by
              simp [jsFindIndex, hpa]] at h
        obtain ⟨j, hj, hij⟩ := Option.map_eq_some'.mp h
        subst hij
        simp only [List.eraseIdx_cons_succ, List.mem_cons] at hx
        rcases hx with rfl | hx
        · simpa using hpa
        · refine ih j hj ?_ x hx
          simpa [List.filter_cons, hpa] using hcnt

theorem mem_eraseIdx_find_of_not (p : α → Bool) :
    ∀ (l : List α) (i : Nat), jsFindIndex p l = some i →
      ∀ x ∈ l, p x = false → x ∈ l.eraseIdx i := by
  intro l
  induction l with
  | nil => intro i h; simp [jsFindIndex] at h
  | cons a t ih =>
      intro i h x hx hpx
      by_cases hpa : p a
      · simp only [jsFindIndex, hpa, if_true, Option.some.injEq] at h
        subst h
        simp only [List.eraseIdx_cons_zero]
        rcases List.mem_cons.mp hx with rfl | hx
        · rw [hpa] at hpx; exact absurd hpx (by simp)
        · exact hx
      · rw [show jsFindIndex p (a :: t) = (jsFindIndex p t).map (· + 1) by
              simp [jsFindIndex, hpa]] at h
        obtain ⟨j, hj, hij⟩ := Option.map_eq_some'.mp h
        subst hij
        simp only [List.eraseIdx_cons_succ, List.mem_cons]
        rcases List.mem_cons.mp hx with rfl | hx
        · exact Or.inl rfl
        · exact Or.inr (ih j hj x hx hpx)

theorem mem_of_mem_eraseIdx {l : List α} {i : Nat} {x : α}
    (h : x ∈ l.eraseIdx i) : x ∈ l :=
  (List.eraseIdx_sublist l i).subset h

/-! Concrete fixtures used by witnesses and counterexamples. -/

/-- A valid uid/gid nsfs configuration. -/
def nsfsCfg : NsfsAccountConfig := { uid := some 1001, gid := some 1001 }

/-- A root account (owner absent): the requesting account of most witnesses. -/
def rootReq : Account :=
  { _id := "r1", name := "root1", email := "root1", creation_date := "D0"
    master_key_id := "mk1", nsfs_account_config := nsfsCfg }

/-- A second, foreign root account. -/
def rootReq2 : Account :=
  { _id := "r2", name := "root2", email := "root2", creation_date := "D0"
    master_key_id := "mk1", nsfs_account_config := nsfsCfg }

/-- An IAM-user requesting account owned by r1. -/
def nonRootReq : Account :=
  { _id := "u9", name := "eve", email := "eve", creation_date := "D0"
    owner := some "r1", master_key_id := "mk1", nsfs_account_config := nsfsCfg }

/-- An access-key slot as create_access_key persists it. -/
def slotMk (k mkid secret : String) : AccessKeySlot :=
  { access_key := k, encrypted_secret_key := mkmEncrypt mkid secret
    creation_date := some "D1", status := some access_key_status_enum.ACTIVE
    creator_identity := some identity_enum.ROOT_ACCOUNT, master_key_id := some mkid }

/-- An IAM user account owned by r1 with the given keys. -/
def mkUser (id name : String) (keys : List AccessKeySlot) : Account :=
  { _id := id, name := name, email := name, creation_date := "D1"
    owner := some "r1", creator := some "r1", iam_path := some "/"
    master_key_id := "mk1", nsfs_account_config := nsfsCfg, access_keys := keys }

/-! Claim theorems. -/

/-- C1: the claim says every authorization-gate rejection fails with an
IamError whose code is AccessDeniedException and whose detail message embeds
the requester ARN.  On the code as written this is false: the shared thrower
destructures IamError.AccessDenied, a property that iam_errors.js never
defines, so the JS runtime raises a plain TypeError (code undefined, no IAM
code, no ARN) on every denial path.  Shown here on create_user with a
non-root requester: the thrown value is the destructuring TypeError, whose
kind is typeError and whose code is absent, and no state is touched. -/
theorem create_user_denied_raises_typeerror (st : St) (req : Account)
    (p : CreateUserParams) (gen_id date : String)
    (h : _check_root_account req = false) :
    (create_user st req p gen_id date).result = .error destructureUndefinedError ∧
    destructureUndefinedError.kind = .typeError ∧
    destructureUndefinedError.code = none ∧
    (create_user st req p gen_id date).st = st := by
  refine ⟨?_, rfl, rfl, ?_⟩ <;>
    simp [create_user, _check_if_requesting_account_is_root_account, h,
      _throw_access_denied_error, throw_static, IamErrorStatic, failOut,
      _translate_error_codes, destructureUndefinedError]

/-- C1 witness: a concrete IAM-user requester is rejected by the root gate
and create_user throws the TypeError. -/
theorem create_user_denied_raises_typeerror_witness :
    _check_root_account nonRootReq = false ∧
    (create_user { accounts := [] } nonRootReq ⟨"Carl", none⟩ "id1" "D2").result =
      .error destructureUndefinedError :=
  ⟨by decide,
   (create_user_denied_raises_typeerror { accounts := [] } nonRootReq ⟨"Carl", none⟩
     "id1" "D2" (by decide)).1⟩

/-- C4 fixture: a store holding one IAM user Bob with no access keys. -/
def stC4 : St := { accounts := [("Bob", mkUser "u1" "Bob" [])] }

/-- C4: the claim says the persisted representation of an access-key status
is the boolean field is_active, with Active/Inactive being wire form only.
The code as written persists the wire string directly: after a successful
create_access_key the stored slot carries status some Active and no is_active
field at all, while the account schema (part_005) declares is_active and the
unit tests read is_active booleans back from the file. -/
theorem create_access_key_persists_status_string :
    (create_access_key stC4 ⟨"mk2"⟩ rootReq ⟨some "Bob"⟩ "AKN" "SN" "D4").result =
      .ok { username := "Bob", access_key := "AKN", create_date := "D4",
            status := "Active", secret_key := "SN" } ∧
    (alookup (create_access_key stC4 ⟨"mk2"⟩ rootReq ⟨some "Bob"⟩ "AKN" "SN" "D4").st.accounts
        "Bob").map (fun a => a.access_keys.map (fun s => (s.access_key, s.status, s.is_active))) =
      some [("AKN", some "Active", none)] := by
  decide

/-- C5: the claim says a third create_access_key fails with the LimitExceeded
kind exposed under its AWS-equivalent code and nothing is modified.  The
quota check and the untouched state hold, but the static LimitExceeded entry
in iam_errors.js carries code EntityAlreadyExists (copied from the
EntityAlreadyExists entry), so the error reaches the caller with code
EntityAlreadyExists rather than LimitExceeded. -/
theorem create_access_key_quota_error (st : St) (mkm : Mkm) (req acc : Account)
    (p : CreateAccessKeyParams) (gen_ak gen_sk date : String)
    (hroot : _check_root_account req = true)
    (hlookup : alookup st.accounts (p.username.getD req.name) = some acc)
    (howned : _check_root_account_owns_user req acc = true)
    (hfull : acc.access_keys.length = 2) :
    (create_access_key st mkm req p gen_ak gen_sk date).result =
      .error { kind := .iamError, code := some "EntityAlreadyExists",
               message := "Cannot exceed quota for AccessKeysPerUser: 2.",
               http_code := some 409 } ∧
    (create_access_key st mkm req p gen_ak gen_sk date).st = st ∧
    (create_access_key st mkm req p gen_ak gen_sk date).fx = {} := by
  refine ⟨?_, ?_, ?_⟩ <;>
    (simp [create_access_key,
       _check_if_requesting_account_is_root_account_or_user_om_himself,
       _check_root_account_or_user, hroot,
       _check_if_account_config_file_exists, is_account_path_exists, hlookup,
       read_account_file, _check_if_user_is_owned_by_root_account, howned,
       _check_number_of_access_key_array, hfull, MAX_NUMBER_OF_ACCESS_KEYS,
       throw_static, IamErrorStatic, mkIamError, failOut, _translate_error_codes]
     <;> decide)

/-- C5 witness: a concrete user with two keys makes the quota check fire with
the EntityAlreadyExists code. -/
theorem create_access_key_quota_error_witness :
    (create_access_key
        { accounts := [("Bob", mkUser "u1" "Bob" [slotMk "AK1" "mk1" "S1", slotMk "AK2" "mk1" "S2"])]
          links := [("AK1", "Bob"), ("AK2", "Bob")] }
        ⟨"mk2"⟩ rootReq ⟨some "Bob"⟩ "AK3" "S3" "D3").result =
      .error { kind := .iamError, code := some "EntityAlreadyExists",
               message := "Cannot exceed quota for AccessKeysPerUser: 2.",
               http_code := some 409 } :=
  (create_access_key_quota_error _ ⟨"mk2"⟩ rootReq
    (mkUser "u1" "Bob" [slotMk "AK1" "mk1" "S1", slotMk "AK2" "mk1" "S2"])
    ⟨some "Bob"⟩ "AK3" "S3" "D3" (by decide) (by decide) (by decide) (by decide)).1

/-- C8: update_access_key with a requested status equal to the stored one
returns successfully without any write: the state (account files, mtimes,
master-key ids) is exactly the one before the call for every master-key
manager state, and the effect log is empty, so no cache invalidation and no
master-key call happened. -/
theorem update_access_key_same_status_noop (st : St) (mkm : Mkm) (req : Account)
    (p : UpdateAccessKeyParams) (rq : Requester) (tname : String) (acc : Account)
    (i : Nat) (slot : AccessKeySlot)
    (hgate : _check_root_account_or_user req p.username = some rq)
    (hlink : alookup st.links p.access_key = some tname)
    (hacc : alookup st.accounts tname = some acc)
    (hsame : jsOr req.owner req._id = jsOr acc.owner acc._id)
    (hget : _get_access_key acc p.access_key = some (i, slot))
    (hstat : slot.status = some p.status) :
    (update_access_key st mkm req p).result = .ok () ∧
    (update_access_key st mkm req p).st = st ∧
    (update_access_key st mkm req p).fx = {} := by
  refine ⟨?_, ?_, ?_⟩ <;>
    simp [update_access_key,
      _check_if_requesting_account_is_root_account_or_user_om_himself, hgate,
      resolve_symlink, hlink, hacc,
      _check_if_requested_account_same_as_requesting_account, hsame,
      hget, hstat]

/-- C8 witness: toggling a key to its current Active status on a concrete
store leaves everything untouched. -/
theorem update_access_key_same_status_noop_witness :
    (update_access_key
        { accounts := [("Carol", mkUser "uc" "Carol" [slotMk "AKC" "mk1" "SC"])]
          links := [("AKC", "Carol")] }
        ⟨"mk2"⟩ rootReq ⟨some "Carol", "AKC", "Active"⟩).st =
      { accounts := [("Carol", mkUser "uc" "Carol" [slotMk "AKC" "mk1" "SC"])]
        links := [("AKC", "Carol")] } :=
  (update_access_key_same_status_noop _ ⟨"mk2"⟩ rootReq ⟨some "Carol", "AKC", "Active"⟩
    ⟨"root1", identity_enum.ROOT_ACCOUNT⟩ "Carol" (mkUser "uc" "Carol" [slotMk "AKC" "mk1" "SC"])
    0 (slotMk "AKC" "mk1" "SC")
    (by decide) (by decide) (by decide) (by decide) (by decide) (by decide)).2.1

/-- C7: delete_user on an owned IAM user with a non-empty access-key list
fails with DeleteConflict and leaves the store (hence the account file)
unchanged with no side effects; with an empty list the account file is
deleted. -/
theorem delete_user_guard (st : St) (req acc : Account) (username : String)
    (hroot : _check_root_account req = true)
    (hlookup : alookup st.accounts username = some acc)
    (hnotroot : _check_root_account acc = false)
    (howned : _check_root_account_owns_user req acc = true)
    (hnd : (st.accounts.map Prod.fst).Nodup) :
    (acc.access_keys ≠ [] →
      (delete_user st req username).result =
        .error { kind := .iamError, code := some "DeleteConflict",
                 message := "Cannot delete entity, must delete access keys first.",
                 http_code := some 409 } ∧
      (delete_user st req username).st = st ∧
      (delete_user st req username).fx = {}) ∧
    (acc.access_keys = [] →
      (delete_user st req username).result = .ok () ∧
      alookup (delete_user st req username).st.accounts username = none ∧
      (delete_user st req username).fx.deleted = [username]) := by
  constructor
  · intro hne
    have hl : ¬ acc.access_keys.length = 0 := fun h => hne (List.length_eq_zero.mp h)
    refine ⟨?_, ?_, ?_⟩ <;>
      simp [delete_user, _check_if_requesting_account_is_root_account, hroot,
        _check_if_account_config_file_exists, is_account_path_exists, hlookup,
        read_account_file, _check_if_requested_account_is_root_account, hnotroot,
        _check_if_user_is_owned_by_root_account, howned,
        _check_if_user_does_not_have_access_keys_before_deletion, hl,
        throw_static, IamErrorStatic, mkIamError, failOut, _translate_error_codes]
  · intro he
    have hl : acc.access_keys.length = 0 := by simp [he]
    refine ⟨?_, ?_, ?_⟩ <;>
      simp [delete_user, _check_if_requesting_account_is_root_account, hroot,
        _check_if_account_config_file_exists, is_account_path_exists, hlookup,
        read_account_file, _check_if_requested_account_is_root_account, hnotroot,
        _check_if_user_is_owned_by_root_account, howned,
        _check_if_user_does_not_have_access_keys_before_deletion, hl,
        delete_config_file, alookup_aerase_self _ _ hnd]

/-- C7 witness: a user with one key triggers DeleteConflict while the store
stays intact, and the same user without keys is deleted. -/
theorem delete_user_guard_witness :
    (delete_user { accounts := [("Alice", mkUser "ua" "Alice" [slotMk "AKA" "mk1" "SA"])] }
        rootReq "Alice").st =
      { accounts := [("Alice", mkUser "ua" "Alice" [slotMk "AKA" "mk1" "SA"])] } ∧
    (delete_user { accounts := [("Alice", mkUser "ua" "Alice" [])] } rootReq "Alice").result =
      .ok () :=
  ⟨((delete_user_guard _ rootReq (mkUser "ua" "Alice" [slotMk "AKA" "mk1" "SA"]) "Alice"
      (by decide) (by decide) (by decide) (by decide) (by decide)).1 (by decide)).2.1,
   ((delete_user_guard _ rootReq (mkUser "ua" "Alice" []) "Alice"
      (by decide) (by decide) (by decide) (by decide) (by decide)).2 (by decide)).1⟩

/-- C6: update_user with a differing new_username first checks for a
collision under the new name (failing with EntityAlreadyExists while leaving
the store untouched), and otherwise creates the renamed record under the new
name and deletes the old file, so that afterwards the old name is absent and
the new name holds the renamed record (name and email rewritten to the new
username). -/
theorem update_user_rename (st : St) (req acc0 : Account) (p : UpdateUserParams) (nu : String)
    (hroot : _check_root_account req = true)
    (hlookup : alookup st.accounts p.username = some acc0)
    (hnotroot : _check_root_account acc0 = false)
    (howned : _check_root_account_owns_user req acc0 = true)
    (hnu : p.new_username = some nu)
    (hneq : nu ≠ p.username)
    (hval : validate_account_schema { apply_new_iam_path p acc0 with name := nu, email := nu } = true)
    (hnd : (st.accounts.map Prod.fst).Nodup) :
    ((alookup st.accounts nu).isSome →
      (update_user st req p).result =
        .error { kind := .iamError, code := some "EntityAlreadyExists",
                 message := "User with name " ++ nu ++ " already exists.",
                 http_code := some 409 } ∧
      (update_user st req p).st = st) ∧
    (alookup st.accounts nu = none →
      (update_user st req p).result =
        .ok (update_user_view req { apply_new_iam_path p acc0 with name := nu, email := nu }) ∧
      alookup (update_user st req p).st.accounts p.username = none ∧
      alookup (update_user st req p).st.accounts nu =
        some { apply_new_iam_path p acc0 with name := nu, email := nu } ∧
      (update_user st req p).fx.created = [nu] ∧
      (update_user st req p).fx.deleted = [p.username]) := by
  constructor
  · intro hcol
    refine ⟨?_, ?_⟩ <;>
      simp [update_user, _check_if_requesting_account_is_root_account, hroot,
        _check_if_account_config_file_exists, is_account_path_exists, hlookup,
        read_account_file, _check_if_requested_account_is_root_account, hnotroot,
        _check_if_user_is_owned_by_root_account, howned, hnu, hneq,
        _check_username_already_exists, hcol,
        throw_static, IamErrorStatic, mkIamError, failOut, _translate_error_codes]
  · intro hfree
    set acc2 : Account := { apply_new_iam_path p acc0 with name := nu, email := nu } with hacc2
    have hlp : alookup (aset st.accounts nu acc2) p.username = some acc0 := by
      rw [alookup_aset_ne _ _ _ _ (Ne.symm hneq)]; exact hlookup
    have hkeys : (aset st.accounts nu acc2).map Prod.fst = st.accounts.map Prod.fst ++ [nu] := by
      rw [aset_eq_append _ _ _ hfree]; simp
    have hnotmem : nu ∉ st.accounts.map Prod.fst := (alookup_eq_none_iff _ _).1 hfree
    have hnd1 : ((aset st.accounts nu acc2).map Prod.fst).Nodup := by
      rw [hkeys]
      exact List.nodup_append.2 ⟨hnd, List.nodup_singleton _, (List.disjoint_singleton).2 hnotmem⟩
    have hgone : alookup (aerase (aset st.accounts nu acc2) p.username) p.username = none :=
      alookup_aerase_self _ _ (by simpa using hnd1)
    have hkept : alookup (aerase (aset st.accounts nu acc2) p.username) nu = some acc2 := by
      rw [alookup_aerase_ne _ _ _ hneq]; exact alookup_aset_self _ _ _
    refine ⟨?_, ?_, ?_, ?_, ?_⟩ <;>
      simp [update_user, _check_if_requesting_account_is_root_account, hroot,
        _check_if_account_config_file_exists, is_account_path_exists, hlookup,
        read_account_file, _check_if_requested_account_is_root_account, hnotroot,
        _check_if_user_is_owned_by_root_account, howned, hnu, hneq,
        _check_username_already_exists, hfree, ← hacc2, hval,
        create_config_file, delete_config_file, hlp, hgone, hkept]

/-- C6 witness: renaming Robert to Roberta removes the old file and installs
the renamed record under the new name. -/
theorem update_user_rename_witness :
    alookup (update_user { accounts := [("Robert", mkUser "ur" "Robert" [])] } rootReq
        ⟨"Robert", some "Roberta", none⟩).st.accounts "Robert" = none ∧
    alookup (update_user { accounts := [("Robert", mkUser "ur" "Robert" [])] } rootReq
        ⟨"Robert", some "Roberta", none⟩).st.accounts "Roberta" =
      some { mkUser "ur" "Robert" [] with name := "Roberta", email := "Roberta" } :=
  ⟨(((update_user_rename _ rootReq (mkUser "ur" "Robert" []) ⟨"Robert", some "Roberta", none⟩
        "Roberta" (by decide) (by decide) (by decide) (by decide) (by decide) (by decide)
        (by decide) (by decide)).2 (by decide)).2.1),
   (((update_user_rename _ rootReq (mkUser "ur" "Robert" []) ⟨"Robert", some "Roberta", none⟩
        "Roberta" (by decide) (by decide) (by decide) (by decide) (by decide) (by decide)
        (by decide) (by decide)).2 (by decide)).2.2.1)⟩

/-- The account record as delete_access_key rewrites it: the matching slot
spliced out of access_keys (last slot removed when the key is absent,
mirroring splice at -1). -/
def spliced_account (acc : Account) (k : String) : Account :=
  { acc with access_keys := jsSpliceRemoveAt acc.access_keys (jsFindIndex (fun s => s.access_key == k) acc.access_keys) }

/-- Shared characterization of a successful delete_access_key: under a
passing gate, a resolving symlink and a same-root target, the operation
splices the matching slot, writes the record under the name derived from
params.username or the requester name, unlinks the symlink and invalidates
the remaining keys. -/
theorem delete_access_key_success_eq (st : St) (req : Account) (p : DeleteAccessKeyParams)
    (rq : Requester) (tname : String) (acc : Account)
    (hgate : _check_root_account_or_user req p.username = some rq)
    (hlink : alookup st.links p.access_key = some tname)
    (hacc : alookup st.accounts tname = some acc)
    (hsame : jsOr req.owner req._id = jsOr acc.owner acc._id)
    (hval : validate_account_schema (spliced_account acc p.access_key) = true) :
    delete_access_key st req p =
      { result := .ok ()
        st := { accounts := aset st.accounts (p.username.getD rq.name) (spliced_account acc p.access_key)
                links := aerase st.links p.access_key
                mtimes := aset st.mtimes (p.username.getD rq.name) st.clock
                clock := st.clock + 1 }
        fx := { written := [p.username.getD rq.name]
                unlinked := [p.access_key]
                invalidated := (spliced_account acc p.access_key).access_keys.map (fun s => s.access_key) } } := by
  have hval0 := hval
  simp only [spliced_account] at hval0
  simp [delete_access_key, _check_if_requesting_account_is_root_account_or_user_om_himself,
    hgate, resolve_symlink, hlink, hacc,
    _check_if_requested_account_same_as_requesting_account, hsame, hval0,
    update_config_file, fs_unlink, _clean_account_cache, spliced_account]

/-- C2 fixture: two IAM users of the same root, where the access key AKY
belongs to user y while the call names user x. -/
def stC2 : St :=
  { accounts := [("root1", rootReq), ("x", mkUser "ux" "x" []), ("y", mkUser "uy" "y" [slotMk "AKY" "mk1" "SY"])]
    links := [("AKY", "y")] }

/-- C2 counterexample: the claim says the rewritten file is the file of the
account the symlink resolved to and that this account afterwards no longer
lists the key.  Concretely, the root calls delete_access_key with username x
for the key AKY whose symlink resolves to account y (same root, so every gate
passes): the call succeeds, yet the file written is x.json rather than
y.json, and y.json still lists AKY afterwards. -/
theorem delete_access_key_wrong_file_counterexample :
    (delete_access_key stC2 rootReq ⟨some "x", "AKY"⟩).result = .ok () ∧
    alookup stC2.links "AKY" = some "y" ∧
    (delete_access_key stC2 rootReq ⟨some "x", "AKY"⟩).fx.written = ["x"] ∧
    alookup (delete_access_key stC2 rootReq ⟨some "x", "AKY"⟩).st.accounts "y" =
      some (mkUser "uy" "y" [slotMk "AKY" "mk1" "SY"]) ∧
    (mkUser "uy" "y" [slotMk "AKY" "mk1" "SY"]).access_keys.map (fun s => s.access_key) =
      ["AKY"] := by
  decide

/-- C2 amended: for a successful delete_access_key the updated record is
written to the file named by params.username (or the requester name) - which
is the file of the resolved account exactly when that name equals the symlink
target; under that name-agreement hypothesis the slot is removed from the
resolved account file, the symlink is unlinked so a later read fails
NotFound, and the enclosing account no longer lists the key. -/
theorem delete_access_key_same_name_cleanup (st : St) (req : Account)
    (p : DeleteAccessKeyParams) (rq : Requester) (tname : String) (acc : Account) (i : Nat)
    (hgate : _check_root_account_or_user req p.username = some rq)
    (hlink : alookup st.links p.access_key = some tname)
    (hacc : alookup st.accounts tname = some acc)
    (hsame : jsOr req.owner req._id = jsOr acc.owner acc._id)
    (hname : p.username.getD rq.name = tname)
    (hfind : jsFindIndex (fun s => s.access_key == p.access_key) acc.access_keys = some i)
    (hcount : (acc.access_keys.filter (fun s => s.access_key == p.access_key)).length ≤ 1)
    (hval : validate_account_schema { acc with access_keys := acc.access_keys.eraseIdx i } = true)
    (hlinknd : (st.links.map Prod.fst).Nodup) :
    (delete_access_key st req p).result = .ok () ∧
    (delete_access_key st req p).fx.written = [tname] ∧
    alookup (delete_access_key st req p).st.links p.access_key = none ∧
    alookup (delete_access_key st req p).st.accounts tname =
      some { acc with access_keys := acc.access_keys.eraseIdx i } ∧
    (∀ s ∈ acc.access_keys.eraseIdx i, s.access_key ≠ p.access_key) := by
  have hval' : validate_account_schema (spliced_account acc p.access_key) = true := by
    simpa [spliced_account, hfind, jsSpliceRemoveAt] using hval
  have heq := delete_access_key_success_eq st req p rq tname acc hgate hlink hacc hsame hval'
  refine ⟨by rw [heq], ?_, ?_, ?_, ?_⟩
  · rw [heq]; simp [hname]
  · rw [heq]; simpa using alookup_aerase_self st.links p.access_key hlinknd
  · rw [heq]; simp [hname, spliced_account, hfind, jsSpliceRemoveAt, alookup_aset_self]
  · intro s hs
    have hfalse := find_eraseIdx_not_mem _ acc.access_keys i hfind hcount s hs
    simpa using hfalse

/-- C2 witness: the usual delete where the supplied username equals the
resolved account name removes the slot, the file and the symlink agree. -/
theorem delete_access_key_same_name_cleanup_witness :
    (delete_access_key
        { accounts := [("Bob", mkUser "u1" "Bob" [slotMk "AK1" "mk1" "S1", slotMk "AK2" "mk1" "S2"])]
          links := [("AK1", "Bob"), ("AK2", "Bob")] }
        rootReq ⟨some "Bob", "AK1"⟩).result = .ok () ∧
    alookup (delete_access_key
        { accounts := [("Bob", mkUser "u1" "Bob" [slotMk "AK1" "mk1" "S1", slotMk "AK2" "mk1" "S2"])]
          links := [("AK1", "Bob"), ("AK2", "Bob")] }
        rootReq ⟨some "Bob", "AK1"⟩).st.links "AK1" = none :=
  ⟨(delete_access_key_same_name_cleanup _ rootReq ⟨some "Bob", "AK1"⟩
      ⟨"root1", identity_enum.ROOT_ACCOUNT⟩ "Bob"
      (mkUser "u1" "Bob" [slotMk "AK1" "mk1" "S1", slotMk "AK2" "mk1" "S2"]) 0
      (by decide) (by decide) (by decide) (by decide) (by decide) (by decide) (by decide)
      (by decide) (by decide)).1,
   (delete_access_key_same_name_cleanup _ rootReq ⟨some "Bob", "AK1"⟩
      ⟨"root1", identity_enum.ROOT_ACCOUNT⟩ "Bob"
      (mkUser "u1" "Bob" [slotMk "AK1" "mk1" "S1", slotMk "AK2" "mk1" "S2"]) 0
      (by decide) (by decide) (by decide) (by decide) (by decide) (by decide) (by decide)
      (by decide) (by decide)).2.2.1⟩

/-- C10: a successful delete_access_key invalidates the cache exactly for the
keys remaining on the record after the splice: the deleted key itself is
never passed to cache.invalidate, so its cache entry is left in place, and
every invalidated key is one of the account keys. -/
theorem delete_access_key_cache_invalidation (st : St) (req : Account)
    (p : DeleteAccessKeyParams) (rq : Requester) (tname : String) (acc : Account) (i : Nat)
    (hgate : _check_root_account_or_user req p.username = some rq)
    (hlink : alookup st.links p.access_key = some tname)
    (hacc : alookup st.accounts tname = some acc)
    (hsame : jsOr req.owner req._id = jsOr acc.owner acc._id)
    (hfind : jsFindIndex (fun s => s.access_key == p.access_key) acc.access_keys = some i)
    (hcount : (acc.access_keys.filter (fun s => s.access_key == p.access_key)).length ≤ 1)
    (hval : validate_account_schema { acc with access_keys := acc.access_keys.eraseIdx i } = true) :
    (delete_access_key st req p).result = .ok () ∧
    (delete_access_key st req p).fx.invalidated =
      (acc.access_keys.eraseIdx i).map (fun s => s.access_key) ∧
    p.access_key ∉ (delete_access_key st req p).fx.invalidated ∧
    (∀ x ∈ (delete_access_key st req p).fx.invalidated,
      ∃ s ∈ acc.access_keys, s.access_key = x) := by
  have hval' : validate_account_schema (spliced_account acc p.access_key) = true := by
    simpa [spliced_account, hfind, jsSpliceRemoveAt] using hval
  have heq := delete_access_key_success_eq st req p rq tname acc hgate hlink hacc hsame hval'
  refine ⟨by rw [heq], ?_, ?_, ?_⟩
  · rw [heq]; simp [spliced_account, hfind, jsSpliceRemoveAt]
  · rw [heq]
    simp only [spliced_account, hfind, jsSpliceRemoveAt, List.mem_map]
    rintro ⟨s, hs, hsk⟩
    have hfalse := find_eraseIdx_not_mem _ acc.access_keys i hfind hcount s hs
    rw [hsk] at hfalse
    simp at hfalse
  · rw [heq]
    simp only [spliced_account, hfind, jsSpliceRemoveAt, List.mem_map]
    rintro x ⟨s, hs, rfl⟩
    exact ⟨s, mem_of_mem_eraseIdx hs, rfl⟩

/-- C10 witness: deleting AK1 from a two-key account invalidates only AK2. -/
theorem delete_access_key_cache_invalidation_witness :
    (delete_access_key
        { accounts := [("Bob", mkUser "u1" "Bob" [slotMk "AK1" "mk1" "S1", slotMk "AK2" "mk1" "S2"])]
          links := [("AK1", "Bob"), ("AK2", "Bob")] }
        rootReq ⟨some "Bob", "AK1"⟩).fx.invalidated =
      ((mkUser "u1" "Bob" [slotMk "AK1" "mk1" "S1", slotMk "AK2" "mk1" "S2"]).access_keys.eraseIdx 0).map
        (fun s => s.access_key) ∧
    "AK1" ∉ (delete_access_key
        { accounts := [("Bob", mkUser "u1" "Bob" [slotMk "AK1" "mk1" "S1", slotMk "AK2" "mk1" "S2"])]
          links := [("AK1", "Bob"), ("AK2", "Bob")] }
        rootReq ⟨some "Bob", "AK1"⟩).fx.invalidated :=
  ⟨(delete_access_key_cache_invalidation _ rootReq ⟨some "Bob", "AK1"⟩
      ⟨"root1", identity_enum.ROOT_ACCOUNT⟩ "Bob"
      (mkUser "u1" "Bob" [slotMk "AK1" "mk1" "S1", slotMk "AK2" "mk1" "S2"]) 0
      (by decide) (by decide) (by decide) (by decide) (by decide) (by decide) (by decide)).2.1,
   (delete_access_key_cache_invalidation _ rootReq ⟨some "Bob", "AK1"⟩
      ⟨"root1", identity_enum.ROOT_ACCOUNT⟩ "Bob"
      (mkUser "u1" "Bob" [slotMk "AK1" "mk1" "S1", slotMk "AK2" "mk1" "S2"]) 0
      (by decide) (by decide) (by decide) (by decide) (by decide) (by decide) (by decide)).2.2.1⟩

/-- C3 fixture: one user whose single slot records master key mk1 while the
active master key is mk2. -/
def stC3 : St :=
  { accounts := [("Carol", mkUser "uc" "Carol" [slotMk "AKC" "mk1" "SC"])]
    links := [("AKC", "Carol")] }

/-- C3 counterexample: the claim says a status toggle decrypts the stored
ciphertext with the master key id recorded on that slot.  Concretely, with
the slot recording mk1 and the active key mk2, the single decrypt call made
by the toggle passes mk2 - the active id - and mk2 differs from the recorded
mk1, so the claim is false on the code. -/
theorem update_access_key_decrypt_key_counterexample :
    (update_access_key stC3 ⟨"mk2"⟩ rootReq ⟨some "Carol", "AKC", "Inactive"⟩).result = .ok () ∧
    (update_access_key stC3 ⟨"mk2"⟩ rootReq ⟨some "Carol", "AKC", "Inactive"⟩).fx.decrypt_calls =
      [("mk2", mkmEncrypt "mk1" "SC")] ∧
    (slotMk "AKC" "mk1" "SC").master_key_id = some "mk1" ∧
    ("mk2" : String) ≠ "mk1" := by
  decide

/-- The slot as update_access_key rewrites it on a status change: ciphertext
re-encrypted with the active key from the value the active key decrypted,
status set, slot master-key id set to the active id. -/
def reencrypted_slot (mkm : Mkm) (slot : AccessKeySlot) (status : String) : AccessKeySlot :=
  { slot with
    encrypted_secret_key := mkmEncrypt mkm.active_id (mkmDecrypt mkm.active_id slot.encrypted_secret_key)
    status := some status
    master_key_id := some mkm.active_id }

/-- C3 amended: on a status change update_access_key decrypts the stored
ciphertext with the CURRENTLY ACTIVE master key id (not the slot-recorded
one), re-encrypts the result with that same active key, overwrites the
ciphertext, sets the new status, and sets both the slot and the account
master_key_id to the active id in the record it writes. -/
theorem update_access_key_reencrypts_with_active (st : St) (mkm : Mkm) (req : Account)
    (p : UpdateAccessKeyParams) (rq : Requester) (tname : String) (acc : Account)
    (i : Nat) (slot : AccessKeySlot)
    (hgate : _check_root_account_or_user req p.username = some rq)
    (hlink : alookup st.links p.access_key = some tname)
    (hacc : alookup st.accounts tname = some acc)
    (hsame : jsOr req.owner req._id = jsOr acc.owner acc._id)
    (hget : _get_access_key acc p.access_key = some (i, slot))
    (hdiff : ¬ slot.status = some p.status)
    (hval : validate_account_schema { acc with
      access_keys := acc.access_keys.set i (reencrypted_slot mkm slot p.status)
      master_key_id := mkm.active_id } = true) :
    (update_access_key st mkm req p).result = .ok () ∧
    (update_access_key st mkm req p).fx.decrypt_calls =
      [(mkm.active_id, slot.encrypted_secret_key)] ∧
    (update_access_key st mkm req p).fx.encrypt_calls =
      [(mkm.active_id, mkmDecrypt mkm.active_id slot.encrypted_secret_key)] ∧
    alookup (update_access_key st mkm req p).st.accounts (p.username.getD rq.name) =
      some { acc with
             access_keys := acc.access_keys.set i (reencrypted_slot mkm slot p.status)
             master_key_id := mkm.active_id } := by
  have hval0 := hval
  simp only [reencrypted_slot] at hval0
  refine ⟨?_, ?_, ?_, ?_⟩ <;>
    simp [update_access_key,
      _check_if_requesting_account_is_root_account_or_user_om_himself, hgate,
      resolve_symlink, hlink, hacc,
      _check_if_requested_account_same_as_requesting_account, hsame,
      hget, hdiff, hval0, update_config_file, reencrypted_slot, alookup_aset_self]

/-- C3 witness: the concrete toggle on the mk1-recorded slot with active key
mk2 yields exactly one decrypt call carrying mk2. -/
theorem update_access_key_reencrypts_with_active_witness :
    (update_access_key stC3 ⟨"mk2"⟩ rootReq ⟨some "Carol", "AKC", "Inactive"⟩).fx.encrypt_calls =
      [("mk2", mkmDecrypt "mk2" (mkmEncrypt "mk1" "SC"))] :=
  (update_access_key_reencrypts_with_active stC3 ⟨"mk2"⟩ rootReq
    ⟨some "Carol", "AKC", "Inactive"⟩ ⟨"root1", identity_enum.ROOT_ACCOUNT⟩ "Carol"
    (mkUser "uc" "Carol" [slotMk "AKC" "mk1" "SC"]) 0 (slotMk "AKC" "mk1" "SC")
    (by decide) (by decide) (by decide) (by decide) (by decide) (by decide) (by decide)).2.2.1

/-- C9: list_users for a root requester returns exactly the stored accounts
whose owner equals the requester id - filtered by iam-path only when a
non-default prefix was passed, with accounts lacking an iam_path elided when
filtering - sorted by username ascending under (code-point) lexicographic
comparison, with is_truncated false and the store untouched.  Directory
entries carrying the temp-file marker are assumed absent (hclean), matching
the skip the scan performs. -/
theorem list_users_spec (st : St) (req : Account) (pre : Option String)
    (hroot : _check_root_account req = true)
    (hclean : ∀ n ∈ st.accounts.map Prod.fst,
      jsIncludes (n ++ ".json") NSFS_TEMP_CONF_DIR_NAME = false) :
    ∃ out, (list_users st req pre).result = .ok out ∧
      out.is_truncated = false ∧
      List.Sorted listed_le out.members ∧
      (∀ m, m ∈ out.members ↔ ∃ n acc, (n, acc) ∈ st.accounts ∧
        _check_root_account_owns_user req acc = true ∧
        (check_iam_path_was_set pre = true →
          ∃ ip pre0, acc.iam_path = some ip ∧ pre = some pre0 ∧ ip.startsWith pre0 = true) ∧
        m = user_view req st acc) ∧
      (list_users st req pre).st = st := by
  refine ⟨{ members := (_list_config_files_for_users st req pre).insertionSort listed_le
            is_truncated := false }, ?_, rfl, ?_, ?_, ?_⟩
  · simp [list_users, _check_if_requesting_account_is_root_account, hroot]
  · exact List.sorted_insertionSort listed_le _
  · intro m
    show m ∈ (_list_config_files_for_users st req pre).insertionSort listed_le ↔ _
    rw [List.mem_insertionSort, _list_config_files_for_users, List.mem_filterMap]
    constructor
    · rintro ⟨⟨n, acc⟩, hmem, hf⟩
      have hmark : jsIncludes (n ++ ".json") NSFS_TEMP_CONF_DIR_NAME = false :=
        hclean n (List.mem_map_of_mem Prod.fst hmem)
      simp only [hmark, Bool.false_eq_true, if_false] at hf
      cases howns : _check_root_account_owns_user req acc with
      | false => simp [howns] at hf
      | true =>
        cases hset : check_iam_path_was_set pre with
        | false =>
            simp only [howns, hset, Bool.false_eq_true, if_false, if_true,
              Option.some.injEq] at hf
            refine ⟨n, acc, hmem, howns, ?_, hf.symm⟩
            intro hc
            exact absurd hc (by simp)
        | true =>
            simp only [howns, hset, if_true] at hf
            cases hip : acc.iam_path with
            | none =>
                rw [hip] at hf
                rcases pre with _ | pre0 <;> simp at hf
            | some ip =>
                rcases hpre : pre with _ | pre0
                · rw [hip, hpre] at hf; simp at hf
                · rw [hip, hpre] at hf
                  cases hsw : ip.startsWith pre0 with
                  | false => simp [hsw] at hf
                  | true =>
                      simp only [hsw, if_true, Option.some.injEq] at hf
                      exact ⟨n, acc, hmem, howns, fun _ => ⟨ip, pre0, hip, rfl, hsw⟩, hf.symm⟩
    · rintro ⟨n, acc, hmem, howns, hfil, rfl⟩
      refine ⟨(n, acc), hmem, ?_⟩
      have hmark := hclean n (List.mem_map_of_mem Prod.fst hmem)
      cases hset : check_iam_path_was_set pre with
      | false => simp [hmark, howns, hset]
      | true =>
          obtain ⟨ip, pre0, hip, hpre, hsw⟩ := hfil hset
          subst hpre
          simp [hmark, howns, hset, hip, hsw]
  · simp [list_users, _check_if_requesting_account_is_root_account, hroot]

/-- C9 fixture: a root and two of its users with usernames out of directory
order. -/
def stC9 : St :=
  { accounts := [("root1", rootReq), ("zeta", mkUser "uz" "zeta" []), ("alpha", mkUser "uA" "alpha" [])] }

/-- C9 witness: the characterized output exists on a concrete store with no
prefix passed. -/
theorem list_users_spec_witness :
    ∃ out, (list_users stC9 rootReq none).result = .ok out ∧
      out.is_truncated = false ∧
      List.Sorted listed_le out.members ∧
      (∀ m, m ∈ out.members ↔ ∃ n acc, (n, acc) ∈ stC9.accounts ∧
        _check_root_account_owns_user rootReq acc = true ∧
        (check_iam_path_was_set none = true →
          ∃ ip pre0, acc.iam_path = some ip ∧ (none : Option String) = some pre0 ∧
            ip.startsWith pre0 = true) ∧
        m = user_view rootReq stC9 acc) ∧
      (list_users stC9 rootReq none).st = stC9 :=
  list_users_spec stC9 rootReq none (by decide) (by decide)

end AccountSpace
